import Mathlib

/-!
Verification of the KMZ/KML-to-CSV centerline generator (src/app.py).

The development is a shallow embedding of the program:

* Python strings are Lean `String`s; character-level work happens on
  `List Char` (`String.data`).
* Python floats are modelled as exact rationals (ℚ).  `float(...)` applied
  to a finite decimal literal is modelled by `pyFloat`; the special
  spellings `inf` / `nan` and underscore digit separators accepted by
  Python are outside the modelled input domain (the program's coordinate
  data never contains them), and double-precision rounding is not
  modelled, so decimal values are exact.
* The lxml element tree is modelled by `XmlElem`; namespaced tags are
  `QName` values (lxml's Clark-notation tag strings carry the same two
  components).  Attributes are omitted: the program never reads them.
* `pandas.DataFrame` is modelled by `DataFrame`: the list of rows plus the
  informal `_lines` attribute that `main` attaches for the TXT export.
* Byte outputs (`.encode("utf-8")`) are modelled as the decoded strings;
  UTF-8 encoding is injective, so byte equality is string equality.
-/

/-! ### Python string splitting -/

/-- Whitespace recognised by Python `str.split()` (ASCII part; the
coordinate text in scope is ASCII). -/
def pyIsSpace (c : Char) : Bool :=
  c = ' ' || c = '\t' || c = '\n' || c = '\x0b' || c = '\x0c' || c = '\r'

/-- Worker for `pySplitWs`; `acc` holds the current token reversed. -/
def splitWsAux : List Char → List Char → List (List Char)
  | [], acc => if acc.isEmpty then [] else [acc.reverse]
  | c :: cs, acc =>
    if pyIsSpace c then
      if acc.isEmpty then splitWsAux cs [] else acc.reverse :: splitWsAux cs []
    else splitWsAux cs (c :: acc)

/-- Python `s.split()` (no argument): split on runs of whitespace,
dropping empty pieces.  A preceding `s.strip()` is a no-op through this
function, so `coord_text.strip().split()` is modelled by `pySplitWs`. -/
def pySplitWs (cs : List Char) : List (List Char) := splitWsAux cs []

/-- Worker for `splitComma`. -/
def splitCommaAux : List Char → List Char → List (List Char)
  | [], acc => [acc.reverse]
  | c :: cs, acc =>
    if c = ',' then acc.reverse :: splitCommaAux cs []
    else splitCommaAux cs (c :: acc)

/-- Python `token.split(",")`: split at every comma, keeping empty
pieces (the result is never the empty list). -/
def splitComma (cs : List Char) : List (List Char) := splitCommaAux cs []

/-! ### Python `float()` on finite decimal literals -/

/-- Nonempty and all decimal digits. -/
def charsDigits (cs : List Char) : Bool := !cs.isEmpty && cs.all (·.isDigit)

/-- Numeric value of a digit string (most significant first). -/
def natOfDigits (cs : List Char) : ℕ := cs.foldl (fun n c => 10 * n + (c.toNat - 48)) 0

/-- Split at the first character satisfying `p`; `none` if absent. -/
def splitAtChar (p : Char → Bool) : List Char → List Char × Option (List Char)
  | [] => ([], none)
  | c :: cs =>
    if p c then ([], some cs)
    else
      let r := splitAtChar p cs
      (c :: r.1, r.2)

/-- Exact value of a decimal literal: sign, mantissa digits (decimal
point removed), number of fractional digits, exponent. -/
structure DecimalLit where
  neg : Bool
  mant : ℕ
  scale : ℕ
  exp : ℤ
deriving DecidableEq

/-- Mantissa part: `digits`, `digits.digits`, `digits.` or `.digits`.
Returns the digit value with the point removed and the fractional digit
count. -/
def parseMantissaDec (cs : List Char) : Option (ℕ × ℕ) :=
  match splitAtChar (· == '.') cs with
  | (ip, none) => if charsDigits ip then some (natOfDigits ip, 0) else none
  | (ip, some fp) =>
    if (!ip.isEmpty || !fp.isEmpty) && ip.all (·.isDigit) && fp.all (·.isDigit) then
      some (natOfDigits ip * 10 ^ fp.length + natOfDigits fp, fp.length)
    else none

/-- Exponent part after `e`/`E`: optional sign then digits. -/
def parseExpDec (cs : List Char) : Option ℤ :=
  match cs with
  | '+' :: ds => if charsDigits ds then some (natOfDigits ds : ℤ) else none
  | '-' :: ds => if charsDigits ds then some (-(natOfDigits ds : ℤ)) else none
  | ds => if charsDigits ds then some (natOfDigits ds : ℤ) else none

/-- Recognise a finite decimal literal the way Python `float()` does
(optional sign, mantissa with optional decimal point, optional
exponent); `none` models `ValueError`. -/
def pyDecimal (cs : List Char) : Option DecimalLit :=
  let sb : Bool × List Char :=
    match cs with
    | '+' :: r => (false, r)
    | '-' :: r => (true, r)
    | r => (false, r)
  match splitAtChar (fun c => c == 'e' || c == 'E') sb.2 with
  | (mant, none) => (parseMantissaDec mant).map (fun m => ⟨sb.1, m.1, m.2, 0⟩)
  | (mant, some ec) =>
    match parseMantissaDec mant, parseExpDec ec with
    | some m, some e => some ⟨sb.1, m.1, m.2, e⟩
    | _, _ => none

/-- The rational value of a decimal literal. -/
def DecimalLit.toRat (d : DecimalLit) : ℚ :=
  let mag : ℚ :=
    if 0 ≤ d.exp then (d.mant : ℚ) * 10 ^ d.exp.toNat / 10 ^ d.scale
    else (d.mant : ℚ) / 10 ^ ((-d.exp).toNat + d.scale)
  if d.neg then -mag else mag

/-- Python `float(field)` on a token field, as an exact rational. -/
def pyFloatChars (cs : List Char) : Option ℚ := (pyDecimal cs).map DecimalLit.toRat

/-- Python `float(s)` for a whole string. -/
def pyFloat (s : String) : Option ℚ := pyFloatChars s.data

/-! ### `parse_coordinates_text` (src/app.py lines 24-35) -/

/-- The fate of one whitespace-separated token under the loop body of
`parse_coordinates_text`: split at commas; if there are at least two
fields and both `float(parts[0])` (longitude) and `float(parts[1])`
(latitude) succeed, emit the pair latitude first; otherwise the token is
skipped (`continue`).  Fields beyond the second are never inspected. -/
def parseCoordToken (token : List Char) : Option (ℚ × ℚ) :=
  let parts := splitComma token
  if 2 ≤ parts.length then
    match pyFloatChars (parts.getD 0 []), pyFloatChars (parts.getD 1 []) with
    | some lon, some lat => some (lat, lon)
    | _, _ => none
  else none

/-- Model of `parse_coordinates_text`: the Python loop, with `coords.append`
modelled by appending to the accumulator. -/
def parse_coordinates_text (coord_text : String) : List (ℚ × ℚ) :=
  (pySplitWs coord_text.data).foldl
    (fun coords token =>
      let parts := splitComma token
      if 2 ≤ parts.length then
        match pyFloatChars (parts.getD 0 []), pyFloatChars (parts.getD 1 []) with
        | some lon, some lat => coords ++ [(lat, lon)]
        | _, _ => coords
      else coords)
    []

/-! ### XML element model (lxml tree, as the program uses it) -/

/-- A namespaced element name.  lxml's Clark-notation tag string carries
the same two components. -/
structure QName where
  ns : String
  name : String
deriving DecidableEq, BEq

/-- An XML element: tag, text node (`None` for a childless empty
element), children in document order.  Attributes are omitted (the
program never reads them). -/
inductive XmlElem : Type where
  | mk (tag : QName) (text : Option String) (children : List XmlElem)

def XmlElem.tag : XmlElem → QName
  | .mk t _ _ => t

def XmlElem.text : XmlElem → Option String
  | .mk _ x _ => x

def XmlElem.children : XmlElem → List XmlElem
  | .mk _ _ cs => cs

mutual

/-- An element followed by all its descendants, in document order. -/
def XmlElem.selfAndBelow : XmlElem → List XmlElem
  | .mk t x cs => .mk t x cs :: belowList cs

/-- All elements of a forest, in document order. -/
def belowList : List XmlElem → List XmlElem
  | [] => []
  | e :: es => e.selfAndBelow ++ belowList es

end

/-- The proper descendants of `root`, in document order (the element set
walked by a leading `.//` path step). -/
def descendants (root : XmlElem) : List XmlElem := belowList root.children

/-- The KML 2.2 default namespace (src/app.py line 13). -/
def kmlNS : String := "http://www.opengis.net/kml/2.2"

def qLineString : QName := ⟨kmlNS, "LineString"⟩

def qCoordinates : QName := ⟨kmlNS, "coordinates"⟩

/-- Model of `root.findall(".//kml:LineString/kml:coordinates", namespaces=KML_NS)`:
for each descendant `LineString` element in document order, its
`coordinates` children in order (ElementPath chains the two steps
lazily, which yields exactly this concatenation). -/
def findLineStringCoordinates (root : XmlElem) : List XmlElem :=
  ((descendants root).filter (fun e => e.tag == qLineString)).flatMap
    (fun e => e.children.filter (fun c => c.tag == qCoordinates))

/-- Model of `extract_linestrings` (src/app.py lines 37-45): one coordinate list
per matched element, skipping elements whose text is missing or empty
(Python truthiness of `el.text`) and elements from which no coordinate
parses. -/
def extract_linestrings (root : XmlElem) : List (List (ℚ × ℚ)) :=
  (findLineStringCoordinates root).foldl
    (fun lines el =>
      match el.text with
      | none => lines
      | some t =>
        if t = "" then lines
        else
          let coords := parse_coordinates_text t
          if coords = [] then lines else lines ++ [coords])
    []

/-! ### DataFrame model and exporters -/

/-- A row: Latitude, Longitude, Icon, LineStringColor
(src/app.py lines 54-59). -/
abbrev CsvRow := ℚ × ℚ × String × String

/-- The pandas DataFrame as the program uses it: the rows, plus the
informal `_lines` attribute `main` attaches (src/app.py line 133) to
recover segment boundaries in the TXT export. -/
structure DataFrame where
  rows : List CsvRow
  lines_attr : Option (List (List (ℚ × ℚ)))

/-- The row-building loop shared by `parse_kml` (lines 51-59) and `main`
(lines 122-130): flatten the segments, one row per coordinate with
constant `Icon="none"`, `LineStringColor="Red"`. -/
def buildRows (lines : List (List (ℚ × ℚ))) : List CsvRow :=
  lines.foldl
    (fun rows coords =>
      coords.foldl (fun rows p => rows ++ [(p.1, p.2, "none", "Red")]) rows)
    []

/-- Model of `parse_kml` (src/app.py lines 47-60) after the XML parse: build the
DataFrame from the extracted LineStrings.  `parse_kml` itself attaches
no `_lines` attribute. -/
def parse_kml (root : XmlElem) : DataFrame :=
  ⟨buildRows (extract_linestrings root), none⟩

/-- Decimal rendering of a rational whose denominator divides a power of
ten, as Python/pandas print the corresponding float (`37.7`, `-122.1`,
integers as `37.0`).  Values outside that range (never produced by the
decimal parser) fall back to a fraction spelling; the very large or very
small magnitudes that Python would print in scientific notation are not
modelled (the claims under test apply the same rendering on both
sides). -/
def fmtQ (q : ℚ) : String :=
  let sign := if q < 0 then "-" else ""
  let n := q.num.natAbs
  let d := q.den
  if d = 1 then sign ++ toString n ++ ".0"
  else
    match (List.range 40).find? (fun k => 10 ^ k % d == 0) with
    | some k =>
      let scaled := n * 10 ^ k / d
      let fracDigits := toString (scaled % 10 ^ k)
      sign ++ toString (scaled / 10 ^ k) ++ "." ++
        String.mk (List.replicate (k - fracDigits.length) '0' ++ fracDigits.data)
    | none => sign ++ toString n ++ "/" ++ toString d

/-- Model of `df.to_csv(buf, index=False)` then `encode("utf-8")`
(src/app.py lines 62-65): the fixed header line, then one line per row,
comma separated, `\n` terminated.  None of the emitted fields needs CSV
quoting. -/
def dataframe_to_csv_bytes (df : DataFrame) : String :=
  df.rows.foldl
    (fun buf r =>
      buf ++ (fmtQ r.1 ++ "," ++ fmtQ r.2.1 ++ "," ++ r.2.2.1 ++ "," ++ r.2.2.2 ++ "\n"))
    "Latitude,Longitude,Icon,LineStringColor\n"

/-- Model of `dataframe_to_txt` (src/app.py lines 67-96): if the `_lines`
attribute is present its segments drive the blocks, otherwise all rows
form a single block; each block is `Begin Line`, a `Latitude,Longitude`
header, the coordinate lines, `End Line`, then a blank line.  The
sequence of `buf.write` calls is modelled by string concatenation. -/
def dataframe_to_txt (df : DataFrame) : String :=
  let coords := df.rows.map (fun r => (r.1, r.2.1))
  let lines := match df.lines_attr with | some ls => ls | none => [coords]
  lines.foldl
    (fun buf line =>
      (line.foldl (fun buf p => buf ++ (fmtQ p.1 ++ "," ++ fmtQ p.2 ++ "\n"))
          (buf ++ "Begin Line\n" ++ "Latitude,Longitude\n")) ++ "End Line\n\n")
    ""

/-! ### KMZ container unwrapping -/

/-- Model of `z.read(name)`: the content stored under `name`.  `zipfile` resolves
a name through `NameToInfo`, where a later duplicate entry overwrites an
earlier one, hence the last match.  The empty-string fallback stands for
the `KeyError` case, unreachable for names drawn from the listing. -/
def zipRead (entries : List (String × String)) (name : String) : String :=
  match (entries.filter (fun e => e.1 == name)).getLast? with
  | some e => e.2
  | none => ""

/-- Model of `read_kml_from_kmz` (src/app.py lines 15-22) over the archive
listing: first preferred conventional name present, else the first entry
whose name ends in `.kml` case-insensitively, else `None`. -/
def read_kml_from_kmz (entries : List (String × String)) : Option String :=
  let preferred := ["doc.kml", "root.kml", "index.kml"]
  let names := entries.map Prod.fst
  let target :=
    match preferred.find? (fun p => names.contains p) with
    | some p => some p
    | none => names.find? (fun n => n.toLower.endsWith ".kml")
  match target with
  | some t => some (zipRead entries t)
  | none => none

/-- The container-unwrap rule in the spec's own words (§4.1): try
`doc.kml`, then `root.kml`, then `index.kml`; fall back to the first
entry whose name ends in the KML extension case-insensitively; fail
(`NoKmlInContainer`, here `none`) when nothing matches. -/
def unwrap_spec (entries : List (String × String)) : Option String :=
  let names := entries.map Prod.fst
  if names.contains "doc.kml" then some (zipRead entries "doc.kml")
  else if names.contains "root.kml" then some (zipRead entries "root.kml")
  else if names.contains "index.kml" then some (zipRead entries "index.kml")
  else
    match names.find? (fun n => n.toLower.endsWith ".kml") with
    | some n => some (zipRead entries n)
    | none => none

/-! ### Pipeline outcomes (the `main` handler, src/app.py lines 108-160) -/

/-- What `main` reports for one uploaded KML body: the caught-exception
error path (for the XML parse this is `XmlParseFailure`), the
`st.warning` empty-result path (`NoGeometryFound`), or a successful
export offering the CSV and TXT bytes. -/
inductive Outcome : Type where
  | xmlParseFailure : Outcome
  | noGeometryFound : Outcome
  | success (csv : String) (txt : String) : Outcome
deriving DecidableEq

/-- The KML branch of `main` (src/app.py lines 115-143), parameterised
by the XML parse step: `etree.fromstring` with `recover=True` is
external library code, so it enters the model as a function returning
`none` where lxml raises `XMLSyntaxError` (per spec §7 this is reserved
for unrecoverable input such as the empty buffer).  On a parsed root the
handler extracts the LineStrings, builds the DataFrame, attaches
`_lines`, and either warns that nothing was found (`df.empty`) or offers
both exports. -/
def process_kml_bytes (parse : String → Option XmlElem) (kml_bytes : String) : Outcome :=
  match parse kml_bytes with
  | none => .xmlParseFailure
  | some root =>
    let lines := extract_linestrings root
    let df : DataFrame := ⟨buildRows lines, some lines⟩
    if df.rows.isEmpty then .noGeometryFound
    else .success (dataframe_to_csv_bytes df) (dataframe_to_txt df)

/-! ### The CollapseConsecutiveDuplicates policy (spec §4.3) -/

/-- Modelled from the spec: the tolerance constant shared by the
normalization policies ("All numeric comparisons use a fixed tolerance
constant (1e-6)", spec §4.3).  The variant in src/app.py implements only
the plain no-filter policy, so this constant has no counterpart under
src/. -/
def TOLERANCE : ℚ := 1 / 1000000

/-- Modelled from the spec: the tail of the collapse walk, where `prev`
is the immediately preceding kept coordinate; a new coordinate is
skipped when both axes are within `TOLERANCE` of `prev` (absolute
difference), otherwise it is kept and becomes the new `prev`. -/
def collapseFrom (prev : ℚ × ℚ) : List (ℚ × ℚ) → List (ℚ × ℚ)
  | [] => []
  | c :: rest =>
    if |c.1 - prev.1| ≤ TOLERANCE ∧ |c.2 - prev.2| ≤ TOLERANCE then
      collapseFrom prev rest
    else c :: collapseFrom c rest

/-- Modelled from the spec: the `CollapseConsecutiveDuplicates`
normalization policy of §4.3, applied to one segment.  The first
coordinate is always kept.  This policy is absent from src/app.py (that
variant extracts with no filtering); it is modelled here because claim
scenarios are stated against it. -/
def collapseConsecutiveDuplicates : List (ℚ × ℚ) → List (ℚ × ℚ)
  | [] => []
  | c :: rest => c :: collapseFrom c rest

/-! ### A relational reading of the core pipeline -/

/-- One run of the core pipeline on a parsed document: extract the
LineStrings, build the DataFrame with the `_lines` attribute attached
(src/app.py lines 119-133), render the CSV and the TXT (lines 142-143),
and deliver the pair of byte outputs.  Stated as a relation so that
determinism is a theorem about derivations rather than a reflexivity
fact. -/
inductive PipelineRun : XmlElem → String × String → Prop where
  | run (root : XmlElem) (lines : List (List (ℚ × ℚ))) (df : DataFrame)
      (csv txt : String) :
      lines = extract_linestrings root →
      df = ⟨buildRows lines, some lines⟩ →
      csv = dataframe_to_csv_bytes df →
      txt = dataframe_to_txt df →
      PipelineRun root (csv, txt)

/-! ### Concrete documents for the scenario claims -/

/-- The spec §8 scenario document: a KML tree whose single `LineString`
holds the coordinates text
`-122.1,37.7,0 -122.1,37.7,0 -122.2,37.8,0`, under the KML 2.2 default
namespace that `extract_linestrings` matches against. -/
def scenarioDoc : XmlElem :=
  .mk ⟨kmlNS, "kml"⟩ none
    [.mk ⟨kmlNS, "Document"⟩ none
      [.mk ⟨kmlNS, "Placemark"⟩ none
        [.mk ⟨kmlNS, "LineString"⟩ none
          [.mk ⟨kmlNS, "coordinates"⟩
            (some "-122.1,37.7,0 -122.1,37.7,0 -122.2,37.8,0") []]]]]

/-- A parsed document with no geometry at all. -/
def emptyDoc : XmlElem := .mk ⟨kmlNS, "kml"⟩ none []


/-! ### Fold characterization lemmas -/

/-- Concatenation of a list of strings, left to right. -/
def concatStrings : List String → String
  | [] => ""
  | s :: rest => s ++ concatStrings rest

theorem foldl_of_step_concat {α : Type} (step : String → α → String) (g : α → String)
    (hstep : ∀ buf x, step buf x = buf ++ g x) :
    ∀ (xs : List α) (buf : String), xs.foldl step buf = buf ++ concatStrings (xs.map g)
  | [], buf => by simp [concatStrings]
  | x :: xs, buf => by
    rw [List.foldl_cons, hstep, List.map_cons,
      foldl_of_step_concat step g hstep xs (buf ++ g x)]
    rw [concatStrings, String.append_assoc]

theorem foldl_filterMap_of_step {α β : Type} (step : List β → α → List β) (f : α → Option β)
    (hstep : ∀ acc t, step acc t = acc ++ (f t).toList) :
    ∀ (ts : List α) (acc : List β), ts.foldl step acc = acc ++ ts.filterMap f
  | [], acc => by simp
  | t :: ts, acc => by
    rw [List.foldl_cons, hstep, List.filterMap_cons]
    cases h : f t with
    | none =>
      simp only [h, Option.toList_none, List.append_nil]
      rw [foldl_filterMap_of_step step f hstep ts acc]
    | some b =>
      simp only [h, Option.toList_some]
      rw [foldl_filterMap_of_step step f hstep ts (acc ++ [b])]
      simp

theorem foldl_append_singleton {α β : Type} (g : α → β) :
    ∀ (xs : List α) (acc : List β), xs.foldl (fun r x => r ++ [g x]) acc = acc ++ xs.map g
  | [], acc => by simp
  | x :: xs, acc => by
    rw [List.foldl_cons, List.map_cons, foldl_append_singleton g xs (acc ++ [g x])]
    simp

theorem foldl_flatten_of_step {α β : Type} (step : List β → α → List β) (g : α → List β)
    (hstep : ∀ acc x, step acc x = acc ++ g x) :
    ∀ (xs : List α) (acc : List β), xs.foldl step acc = acc ++ (xs.map g).flatten
  | [], acc => by simp
  | x :: xs, acc => by
    rw [List.foldl_cons, hstep, List.map_cons,
      foldl_flatten_of_step step g hstep xs (acc ++ g x)]
    simp

/-! ### Characterizations of the embedded functions -/

/-- Token-level characterization of `parse_coordinates_text`: it is the
order-preserving `filterMap` of `parseCoordToken` over the
whitespace-split tokens. -/
theorem parse_coordinates_text_eq (s : String) :
    parse_coordinates_text s = (pySplitWs s.data).filterMap parseCoordToken := by
  have h := foldl_filterMap_of_step
      (fun coords token =>
        let parts := splitComma token
        if 2 ≤ parts.length then
          match pyFloatChars (parts.getD 0 []), pyFloatChars (parts.getD 1 []) with
          | some lon, some lat => coords ++ [(lat, lon)]
          | _, _ => coords
        else coords)
      parseCoordToken ?hstep (pySplitWs s.data) []
  case hstep =>
    intro acc t
    show (let parts := splitComma t
      if 2 ≤ parts.length then
        match pyFloatChars (parts.getD 0 []), pyFloatChars (parts.getD 1 []) with
        | some lon, some lat => acc ++ [(lat, lon)]
        | _, _ => acc
      else acc) = acc ++ (parseCoordToken t).toList
    simp only [parseCoordToken]
    by_cases hp : 2 ≤ (splitComma t).length
    · simp only [hp, if_true]
      cases pyFloatChars ((splitComma t).getD 0 []) <;>
        cases pyFloatChars ((splitComma t).getD 1 []) <;> simp
    · simp [hp]
  rw [parse_coordinates_text, h]
  simp

/-- What one matched `coordinates` element contributes to
`extract_linestrings`, spelled with the token-level `filterMap` so that
document order is explicit: `none` when the text is missing, empty, or
yields no parsed coordinate. -/
def elemSegment (el : XmlElem) : Option (List (ℚ × ℚ)) :=
  match el.text with
  | none => none
  | some t =>
    if t = "" then none
    else
      let coords := (pySplitWs t.data).filterMap parseCoordToken
      if coords = [] then none else some coords

/-- Element-level characterization of `extract_linestrings`: it is the
order-preserving `filterMap` of `elemSegment` over the matched elements
in document order. -/
theorem extract_linestrings_eq (root : XmlElem) :
    extract_linestrings root = (findLineStringCoordinates root).filterMap elemSegment := by
  have h := foldl_filterMap_of_step
      (fun lines el =>
        match el.text with
        | none => lines
        | some t =>
          if t = "" then lines
          else
            let coords := parse_coordinates_text t
            if coords = [] then lines else lines ++ [coords])
      elemSegment ?hstep (findLineStringCoordinates root) []
  case hstep =>
    intro acc el
    show (match el.text with
      | none => acc
      | some t =>
        if t = "" then acc
        else
          let coords := parse_coordinates_text t
          if coords = [] then acc else acc ++ [coords]) = acc ++ (elemSegment el).toList
    simp only [elemSegment]
    cases el.text with
    | none => simp
    | some t =>
      by_cases ht : t = ""
      · simp [ht]
      · simp only [ht, if_false, parse_coordinates_text_eq]
        by_cases hc : (pySplitWs t.data).filterMap parseCoordToken = [] <;> simp [hc]
  rw [extract_linestrings, h]
  simp

/-- Row-level characterization of `buildRows`: flatten the segments and
map each coordinate to its constant-filled row. -/
theorem buildRows_eq (lines : List (List (ℚ × ℚ))) :
    buildRows lines = lines.flatten.map (fun p => (p.1, p.2, "none", "Red")) := by
  have h := foldl_flatten_of_step
      (fun rows coords =>
        coords.foldl (fun rows p => rows ++ [(p.1, p.2, "none", "Red")]) rows)
      (fun coords => coords.map (fun p => (p.1, p.2, "none", "Red")))
      (fun acc coords => foldl_append_singleton _ coords acc) lines []
  rw [buildRows, h]
  simp [← List.map_flatten]

/-- One CSV data line. -/
def csvLine (r : CsvRow) : String :=
  fmtQ r.1 ++ "," ++ fmtQ r.2.1 ++ "," ++ r.2.2.1 ++ "," ++ r.2.2.2 ++ "\n"

theorem dataframe_to_csv_bytes_eq (df : DataFrame) :
    dataframe_to_csv_bytes df =
      "Latitude,Longitude,Icon,LineStringColor\n" ++ concatStrings (df.rows.map csvLine) := by
  rw [dataframe_to_csv_bytes]
  exact foldl_of_step_concat _ csvLine (fun buf r => rfl) df.rows _

/-- One TXT coordinate line, latitude first. -/
def txtCoordLine (p : ℚ × ℚ) : String := fmtQ p.1 ++ "," ++ fmtQ p.2 ++ "\n"

/-- One TXT block: the literal `Begin Line` marker, the column header,
the coordinate lines, the literal `End Line` marker, a blank line. -/
def txtBlock (line : List (ℚ × ℚ)) : String :=
  "Begin Line\n" ++ "Latitude,Longitude\n" ++
    concatStrings (line.map txtCoordLine) ++ "End Line\n\n"

theorem txt_step_eq (buf : String) (line : List (ℚ × ℚ)) :
    (line.foldl (fun buf p => buf ++ (fmtQ p.1 ++ "," ++ fmtQ p.2 ++ "\n"))
        (buf ++ "Begin Line\n" ++ "Latitude,Longitude\n")) ++ "End Line\n\n"
    = buf ++ txtBlock line := by
  rw [foldl_of_step_concat
    (fun (b : String) (p : ℚ × ℚ) => b ++ (fmtQ p.1 ++ "," ++ fmtQ p.2 ++ "\n"))
    txtCoordLine (fun b p => rfl) line (buf ++ "Begin Line\n" ++ "Latitude,Longitude\n")]
  simp only [txtBlock, txtCoordLine, String.append_assoc]

/-- Behaviour of `dataframe_to_txt` when the `_lines` attribute is present: one block
per segment, the rows playing no part. -/
theorem dataframe_to_txt_some_eq (rows : List CsvRow) (segs : List (List (ℚ × ℚ))) :
    dataframe_to_txt ⟨rows, some segs⟩ = concatStrings (segs.map txtBlock) := by
  rw [dataframe_to_txt]
  rw [foldl_of_step_concat _ txtBlock (fun buf line => txt_step_eq buf line) segs ""]
  simp

/-- Behaviour of `dataframe_to_txt` when the `_lines` attribute is absent: a single
block holding every row in order. -/
theorem dataframe_to_txt_none_eq (rows : List CsvRow) :
    dataframe_to_txt ⟨rows, none⟩ = txtBlock (rows.map (fun r => (r.1, r.2.1))) := by
  rw [dataframe_to_txt]
  rw [foldl_of_step_concat _ txtBlock (fun buf line => txt_step_eq buf line)
    [rows.map (fun r => (r.1, r.2.1))] ""]
  simp [concatStrings]

/-! ### Concrete evaluations -/

theorem pyFloat_neg122_1 : pyFloatChars ['-', '1', '2', '2', '.', '1'] = some (-122.1) := by
  have h : pyDecimal ['-', '1', '2', '2', '.', '1'] = some ⟨true, 1221, 1, 0⟩ := by decide
  simp [pyFloatChars, h, DecimalLit.toRat]
  norm_num

theorem pyFloat_37_7 : pyFloatChars ['3', '7', '.', '7'] = some 37.7 := by
  have h : pyDecimal ['3', '7', '.', '7'] = some ⟨false, 377, 1, 0⟩ := by decide
  simp [pyFloatChars, h, DecimalLit.toRat]
  norm_num

theorem pyFloat_neg122_2 : pyFloatChars ['-', '1', '2', '2', '.', '2'] = some (-122.2) := by
  have h : pyDecimal ['-', '1', '2', '2', '.', '2'] = some ⟨true, 1222, 1, 0⟩ := by decide
  simp [pyFloatChars, h, DecimalLit.toRat]
  norm_num

theorem pyFloat_37_8 : pyFloatChars ['3', '7', '.', '8'] = some 37.8 := by
  have h : pyDecimal ['3', '7', '.', '8'] = some ⟨false, 378, 1, 0⟩ := by decide
  simp [pyFloatChars, h, DecimalLit.toRat]
  norm_num

theorem pyFloat_1 : pyFloatChars ['1'] = some 1 := by
  have h : pyDecimal ['1'] = some ⟨false, 1, 0, 0⟩ := by decide
  simp [pyFloatChars, h, DecimalLit.toRat]

theorem pyFloat_2 : pyFloatChars ['2'] = some 2 := by
  have h : pyDecimal ['2'] = some ⟨false, 2, 0, 0⟩ := by decide
  simp [pyFloatChars, h, DecimalLit.toRat]

theorem pyFloat_x : pyFloatChars ['x'] = none := by decide

theorem token_A :
    parseCoordToken ['-', '1', '2', '2', '.', '1', ',', '3', '7', '.', '7', ',', '0'] =
      some (37.7, -122.1) := by
  have hs : splitComma ['-', '1', '2', '2', '.', '1', ',', '3', '7', '.', '7', ',', '0'] =
      [['-', '1', '2', '2', '.', '1'], ['3', '7', '.', '7'], ['0']] := by decide
  simp [parseCoordToken, hs, pyFloat_neg122_1, pyFloat_37_7]

theorem token_B :
    parseCoordToken ['-', '1', '2', '2', '.', '2', ',', '3', '7', '.', '8', ',', '0'] =
      some (37.8, -122.2) := by
  have hs : splitComma ['-', '1', '2', '2', '.', '2', ',', '3', '7', '.', '8', ',', '0'] =
      [['-', '1', '2', '2', '.', '2'], ['3', '7', '.', '8'], ['0']] := by decide
  simp [parseCoordToken, hs, pyFloat_neg122_2, pyFloat_37_8]

theorem scenario_parse :
    parse_coordinates_text "-122.1,37.7,0 -122.1,37.7,0 -122.2,37.8,0" =
      [(37.7, -122.1), (37.7, -122.1), (37.8, -122.2)] := by
  rw [parse_coordinates_text_eq]
  have hw : pySplitWs "-122.1,37.7,0 -122.1,37.7,0 -122.2,37.8,0".data =
      ["-122.1,37.7,0".data, "-122.1,37.7,0".data, "-122.2,37.8,0".data] := by decide
  rw [hw]
  simp [token_A, token_B]

theorem scenario_split :
    pySplitWs ['-', '1', '2', '2', '.', '1', ',', '3', '7', '.', '7', ',', '0', ' ', '-', '1', '2', '2', '.', '1', ',', '3', '7', '.', '7', ',', '0', ' ', '-', '1', '2', '2', '.', '2', ',', '3', '7', '.', '8', ',', '0'] =
      [['-', '1', '2', '2', '.', '1', ',', '3', '7', '.', '7', ',', '0'],
       ['-', '1', '2', '2', '.', '1', ',', '3', '7', '.', '7', ',', '0'],
       ['-', '1', '2', '2', '.', '2', ',', '3', '7', '.', '8', ',', '0']] := by decide

theorem scenario_filterMap :
    List.filterMap parseCoordToken
      (pySplitWs ['-', '1', '2', '2', '.', '1', ',', '3', '7', '.', '7', ',', '0', ' ', '-', '1', '2', '2', '.', '1', ',', '3', '7', '.', '7', ',', '0', ' ', '-', '1', '2', '2', '.', '2', ',', '3', '7', '.', '8', ',', '0']) =
      [(37.7, -122.1), (37.7, -122.1), (37.8, -122.2)] := by
  rw [scenario_split]
  simp [token_A, token_B]

theorem scenario_elem :
    elemSegment (XmlElem.mk qCoordinates
      (some "-122.1,37.7,0 -122.1,37.7,0 -122.2,37.8,0") []) =
      some [(37.7, -122.1), (37.7, -122.1), (37.8, -122.2)] := by
  simp +decide [elemSegment, XmlElem.text, scenario_filterMap]

theorem scenario_find :
    findLineStringCoordinates scenarioDoc =
      [XmlElem.mk qCoordinates
        (some "-122.1,37.7,0 -122.1,37.7,0 -122.2,37.8,0") []] := by
  simp +decide [findLineStringCoordinates, descendants, scenarioDoc, belowList,
    XmlElem.selfAndBelow, XmlElem.children, XmlElem.tag, qLineString, qCoordinates, kmlNS]

theorem scenario_extract :
    extract_linestrings scenarioDoc =
      [[(37.7, -122.1), (37.7, -122.1), (37.8, -122.2)]] := by
  rw [extract_linestrings_eq, scenario_find]
  simp [scenario_elem]

theorem scenario_collapse :
    collapseConsecutiveDuplicates [(37.7, -122.1), (37.7, -122.1), (37.8, -122.2)] =
      [(37.7, -122.1), (37.8, -122.2)] := by
  have habs : |(1 : ℚ) / 10| = 1 / 10 := abs_of_nonneg (by norm_num)
  norm_num [collapseConsecutiveDuplicates, collapseFrom, TOLERANCE, habs]

theorem elemSegment_ne_nil {el : XmlElem} {seg : List (ℚ × ℚ)}
    (h : elemSegment el = some seg) : seg ≠ [] := by
  cases hel : el.text with
  | none => simp [elemSegment, hel] at h
  | some t =>
    simp only [elemSegment, hel] at h
    by_cases ht : t = ""
    · rw [if_pos ht] at h
      simp at h
    · rw [if_neg ht] at h
      by_cases hc : (pySplitWs t.data).filterMap parseCoordToken = []
      · rw [if_pos hc] at h
        simp at h
      · rw [if_neg hc] at h
        injection h with h2
        subst h2
        exact hc

/-! ### The claims -/

/-- C1, counterexample to the claim as stated: the token `1,2,x` contains
the non-numeric field `x` after the comma split, yet it is not skipped —
the program emits `(2, 1)` from its first two fields, because fields
beyond the second are never inspected. -/
theorem claim_C1_counterexample :
    parse_coordinates_text "1,2,x" = [(2, 1)] ∧ pyFloatChars ['x'] = none := by
  constructor
  · rw [parse_coordinates_text_eq]
    have hw : pySplitWs "1,2,x".data = [['1', ',', '2', ',', 'x']] := by decide
    rw [hw]
    have hs : splitComma ['1', ',', '2', ',', 'x'] = [['1'], ['2'], ['x']] := by decide
    simp [parseCoordToken, hs, pyFloat_1, pyFloat_2]
  · decide

/-- C1 as amended: tokenization splits the node text on whitespace and
each token on commas; the first field is parsed as longitude, the second
as latitude, and the emitted pair is latitude-first; a token is skipped
exactly when it has fewer than two comma-separated fields or its first
or second field is non-numeric (fields beyond the second are ignored);
skipping is per token — every other token of the node is still parsed,
so token-level errors are never fatal. -/
theorem claim_C1_tokenization (s : String) :
    parse_coordinates_text s =
      (pySplitWs s.data).filterMap (fun token =>
        let parts := splitComma token
        if 2 ≤ parts.length then
          match pyFloatChars (parts.getD 0 []), pyFloatChars (parts.getD 1 []) with
          | some lon, some lat => some (lat, lon)
          | _, _ => none
        else none) :=
  parse_coordinates_text_eq s

/-- C2: on the KML document with the single LineString coordinates text
`-122.1,37.7,0 -122.1,37.7,0 -122.2,37.8,0`, LineString-only extraction
followed by the CollapseConsecutiveDuplicates policy (modelled from the
spec; absolute tolerance 1e-6 per axis against the previously kept
coordinate) yields the single segment
`[(37.7, -122.1), (37.8, -122.2)]`, latitude first. -/
theorem claim_C2_scenario :
    (extract_linestrings scenarioDoc).map collapseConsecutiveDuplicates =
      [[(37.7, -122.1), (37.8, -122.2)]] := by
  rw [scenario_extract]
  simp [scenario_collapse]

/-- C3: extraction preserves document order and never sorts or
deduplicates — the segment list is an order-preserving `filterMap` over
the matched `coordinates` elements in document order, and each segment
is an order-preserving `filterMap` of the per-token parse over that
element's whitespace-split tokens in text order. -/
theorem claim_C3_document_order (root : XmlElem) :
    extract_linestrings root =
      (findLineStringCoordinates root).filterMap (fun el =>
        match el.text with
        | none => none
        | some t =>
          if t = "" then none
          else
            let coords := (pySplitWs t.data).filterMap parseCoordToken
            if coords = [] then none else some coords) :=
  extract_linestrings_eq root

/-- C4: KMZ unwrapping selects the embedded KML by preference order over
`doc.kml`, `root.kml`, `index.kml`; otherwise it falls back to the first
entry whose name ends in `.kml` case-insensitively; otherwise it fails
with the no-result outcome `none` (`NoKmlInContainer`), producing no
partial output. -/
theorem claim_C4_unwrap (entries : List (String × String)) :
    read_kml_from_kmz entries = unwrap_spec entries := by
  unfold read_kml_from_kmz unwrap_spec
  by_cases h1 : "doc.kml" ∈ entries.map Prod.fst <;>
    by_cases h2 : "root.kml" ∈ entries.map Prod.fst <;>
      by_cases h3 : "index.kml" ∈ entries.map Prod.fst <;>
        simp [h1, h2, h3, List.find?]

/-- C5: the Extended CSV export is exactly the header line
`Latitude,Longitude,Icon,LineStringColor` followed by one row per
extracted coordinate in order, each row carrying latitude then longitude
then the constants `none` and `Red`, with no Begin/End marker rows. -/
theorem claim_C5_csv_profile (root : XmlElem) :
    dataframe_to_csv_bytes (parse_kml root) =
      "Latitude,Longitude,Icon,LineStringColor\n" ++
        concatStrings ((extract_linestrings root).flatten.map (fun p =>
          fmtQ p.1 ++ "," ++ fmtQ p.2 ++ "," ++ "none" ++ "," ++ "Red" ++ "\n")) := by
  rw [dataframe_to_csv_bytes_eq]
  simp [parse_kml, buildRows_eq, List.map_map, Function.comp_def, csvLine]

/-- C6: with segment boundaries present, the TXT export emits for each
segment, in order, the literal marker line `Begin Line`, the block
header, the coordinate rows as latitude,longitude, the literal marker
line `End Line`, and a blank line after it (hence a blank line separates
consecutive blocks) — the marker strings and delimiters appearing
exactly as written here. -/
theorem claim_C6_txt_blocks (rows : List CsvRow) (segs : List (List (ℚ × ℚ))) :
    dataframe_to_txt ⟨rows, some segs⟩ =
      concatStrings (segs.map (fun line =>
        "Begin Line\n" ++ "Latitude,Longitude\n" ++
          concatStrings (line.map (fun p => fmtQ p.1 ++ "," ++ fmtQ p.2 ++ "\n")) ++
          "End Line\n\n")) :=
  dataframe_to_txt_some_eq rows segs

/-- C7: on the empty input buffer the pipeline deterministically reports
the parse-failure outcome (the implementation's fixed choice between
`XmlParseFailure` and `NoGeometryFound`): the recovering XML parse step
fails on an empty document, and the handler reports that failure —
`Outcome.xmlParseFailure` is a different constructor from
`Outcome.success`, so no exportable output is ever offered for it. -/
theorem claim_C7_empty_buffer (parse : String → Option XmlElem)
    (h : parse "" = none) :
    process_kml_bytes parse "" = Outcome.xmlParseFailure := by
  simp [process_kml_bytes, h]

/-- C7 witness: a parse function failing on the empty string, run
through the handler. -/
theorem claim_C7_empty_buffer_witness :
    process_kml_bytes (fun _ => none) "" = Outcome.xmlParseFailure :=
  claim_C7_empty_buffer (fun _ => none) rfl

/-- C8: every segment produced by LineString extraction is non-empty — a
`coordinates` element with missing, empty, or wholly unparsable text
contributes no segment at all rather than an empty one. -/
theorem claim_C8_segments_nonempty (root : XmlElem) :
    (extract_linestrings root).all (fun seg => !seg.isEmpty) = true := by
  rw [extract_linestrings_eq, List.all_eq_true]
  intro seg hseg
  rw [List.mem_filterMap] at hseg
  obtain ⟨el, -, hel⟩ := hseg
  have hne := elemSegment_ne_nil hel
  cases seg with
  | nil => exact absurd rfl hne
  | cons a rest => rfl

/-- C9: TXT segment boundaries come only from the `_lines` side channel:
without it the export is exactly one Begin Line/End Line block holding
every row in row order, and with it the rows themselves are irrelevant —
two DataFrames with the same `_lines` but different rows render
identically. -/
theorem claim_C9_lines_side_channel (rows rows2 : List CsvRow)
    (segs : List (List (ℚ × ℚ))) :
    dataframe_to_txt ⟨rows, none⟩ =
      "Begin Line\n" ++ "Latitude,Longitude\n" ++
        concatStrings (rows.map (fun r => fmtQ r.1 ++ "," ++ fmtQ r.2.1 ++ "\n")) ++
        "End Line\n\n"
    ∧ dataframe_to_txt ⟨rows, some segs⟩ = dataframe_to_txt ⟨rows2, some segs⟩ := by
  constructor
  · rw [dataframe_to_txt_none_eq]
    simp [txtBlock, txtCoordLine, List.map_map, Function.comp_def]
  · rw [dataframe_to_txt_some_eq, dataframe_to_txt_some_eq]

/-- C10: the core pipeline is deterministic — any two runs on the same
parsed input deliver the same CSV bytes and the same TXT bytes; every
intermediate value of a run is fixed by the input alone. -/
theorem claim_C10_deterministic (root : XmlElem) (o1 o2 : String × String)
    (h1 : PipelineRun root o1) (h2 : PipelineRun root o2) : o1 = o2 := by
  cases h1 with
  | run lines df csv txt hl hdf hcsv htxt =>
    cases h2 with
    | run lines2 df2 csv2 txt2 hl2 hdf2 hcsv2 htxt2 =>
      subst hl hdf hcsv htxt hl2 hdf2 hcsv2 htxt2
      rfl

/-- C10 witness: two concrete runs on `emptyDoc`, compared. -/
theorem claim_C10_deterministic_witness :
    ((dataframe_to_csv_bytes
        ⟨buildRows (extract_linestrings emptyDoc), some (extract_linestrings emptyDoc)⟩,
      dataframe_to_txt
        ⟨buildRows (extract_linestrings emptyDoc), some (extract_linestrings emptyDoc)⟩)
      : String × String) =
    (dataframe_to_csv_bytes
        ⟨buildRows (extract_linestrings emptyDoc), some (extract_linestrings emptyDoc)⟩,
      dataframe_to_txt
        ⟨buildRows (extract_linestrings emptyDoc), some (extract_linestrings emptyDoc)⟩) :=
  claim_C10_deterministic emptyDoc _ _
    (.run emptyDoc _ _ _ _ rfl rfl rfl rfl)
    (.run emptyDoc _ _ _ _ rfl rfl rfl rfl)
